import Mathlib

/-!
Shallow embedding of the SaaS Tower Defense simulation core
(src/saas-tower-defense/js/{customer,tower,metrics,game}.js).

Modelling conventions:
* JS numbers are modelled as exact rationals (`ℚ`).  `Math.round` is
  modelled as `jsRound q = ⌊q + 1/2⌋` (round half up, JS semantics on the
  nonnegative values that occur here).
* `Math.random()` draws are passed in explicitly, one named parameter per
  draw site, in the order the source consumes them.  When a loop draws one
  random number per entity, the draws are supplied as a function from the
  entity's id (an oracle); each `Math.random()` call is i.i.d., so indexing
  draws by the entity they are used on is an equivalent presentation.
* `Math.sqrt` is kept abstract: functions that compute a Euclidean distance
  take a `sqrtFn : ℚ → ℚ` parameter standing for the numeric square root.
  All theorems below hold for every `sqrtFn`; concrete instances use inputs
  whose squared distance is 0, where any square root function that is exact
  at 0 agrees.
* Object references (a tower's `currentTargets` holds references into the
  live customer array) are modelled by storing customer ids and looking
  them up in the population list; customer ids are unique in the game
  (`customer_${counter++}`), so reference identity coincides with id
  identity.
* Purely visual fields (`size`, `color`) and canvas drawing are out of
  scope per the specification and are omitted.
-/

/-- JS `Math.round`: round half away from zero; on the nonnegative inputs
used in this program this equals `⌊q + 1/2⌋`. -/
def jsRound (q : ℚ) : ℤ := ⌊q + 1/2⌋

/-- 2-D point, `{x, y}` in the source. -/
structure Point where
  x : ℚ
  y : ℚ
deriving DecidableEq, Repr

/-- Customer lifecycle status (customer.js line 16). -/
inductive CStatus where
  | PROSPECT
  | ACTIVE
  | CHURNED
  | GOLD
deriving DecidableEq, Repr, BEq

/-- Customer type (customer.js line 15). -/
inductive CType where
  | SMALL
  | MEDIUM
  | ENTERPRISE
deriving DecidableEq, Repr, BEq

/-- One customer (customer.js constructor, lines 12-42).  Visual fields
(`size`, `color`) are omitted as out-of-scope presentation state. -/
structure Customer where
  id : ℕ
  ctype : CType
  status : CStatus
  position : Point
  health : ℚ
  spend : ℚ
  trust : ℚ
  lapCount : ℕ
  pathPosition : ℚ
  movementSpeed : ℚ
  isOnTrack : Bool
  targetPoint : Option Point
  approachSpeed : ℚ
  engaged : Bool
deriving DecidableEq, Repr

namespace Customer

/-- `calculateInitialSpend` (customer.js lines 48-59); `r` is the
`Math.random()` draw. -/
def calculateInitialSpend (t : CType) (r : ℚ) : ℚ :=
  match t with
  | .SMALL => 5000 + r * 5000
  | .MEDIUM => 20000 + r * 30000
  | .ENTERPRISE => 100000 + r * 400000

/-- `calculateMovementSpeed` (customer.js lines 65-76); `r` is the
`Math.random()` draw. -/
def calculateMovementSpeed (t : CType) (r : ℚ) : ℚ :=
  match t with
  | .SMALL => 1/1000 + r * (1/2000)
  | .MEDIUM => 1/1250 + r * (3/10000)
  | .ENTERPRISE => 1/2000 + r * (1/5000)

/-- Customer constructor (customer.js lines 12-42).  `rSpend`, `rSpeed`,
`rApproach` are the three `Math.random()` draws it makes. -/
def init (id : ℕ) (t : CType) (pos : Point) (rSpend rSpeed rApproach : ℚ) :
    Customer where
  id := id
  ctype := t
  status := .PROSPECT
  position := pos
  health := 100
  spend := calculateInitialSpend t rSpend
  trust := 50
  lapCount := 0
  pathPosition := 0
  movementSpeed := calculateMovementSpeed t rSpeed
  isOnTrack := false
  targetPoint := none
  approachSpeed := 1/2 + rApproach * (1/2)
  engaged := false

/-- `churnProbability` as computed in `decideRenewal` (customer.js line 228):
`(100 - trust) * 0.01 * (100 - health) * 0.01`. -/
def churnProbability (c : Customer) : ℚ :=
  (100 - c.trust) * (1/100) * (100 - c.health) * (1/100)

/-- `decideRenewal` (customer.js lines 226-239).  `r1` is the churn draw,
`r2` the 20%-expansion draw, `r3` the expansion-magnitude draw, in source
order (the latter two are only consumed on survival). -/
def decideRenewal (c : Customer) (r1 r2 r3 : ℚ) : Customer :=
  if r1 < churnProbability c then
    { c with status := .CHURNED }
  else if r2 < 1/5 then
    { c with spend := c.spend * (1 + r3 * (1/10)) }
  else
    c

/-- `onLapComplete` (customer.js lines 202-221). -/
def onLapComplete (c : Customer) (r1 r2 r3 : ℚ) : Customer :=
  if c.status = .PROSPECT then
    c
  else
    let c1 := if c.status = .ACTIVE then decideRenewal c r1 r2 r3 else c
    { c1 with trust := max 0 (c1.trust - 5), health := max 0 (c1.health - 5) }

/-- `convert` (customer.js lines 252-259), dropping the boolean result. -/
def convert (c : Customer) : Customer :=
  if c.status = .PROSPECT then { c with status := .ACTIVE } else c

/-- `increaseHealth` (customer.js lines 265-268). -/
def increaseHealth (amount : ℚ) (c : Customer) : Customer :=
  { c with health := min 100 (c.health + amount) }

/-- `increaseTrust` (customer.js lines 274-276). -/
def increaseTrust (amount : ℚ) (c : Customer) : Customer :=
  { c with trust := min 100 (c.trust + amount) }

/-- `increaseSpend` (customer.js lines 282-285). -/
def increaseSpend (percentage : ℚ) (c : Customer) : Customer :=
  { c with spend := c.spend * (1 + percentage) }

/-- `recoverToGold` (customer.js lines 290-299), dropping the boolean
result. -/
def recoverToGold (c : Customer) : Customer :=
  if c.status = .CHURNED then
    { c with status := .GOLD, health := 100, trust := 100 }
  else
    c

/-- `wanderOnEdge` (customer.js lines 182-197); `r1`, `r2` are the two
offset draws, `cw`/`ch` the canvas dimensions. -/
def wanderOnEdge (cw ch : ℚ) (r1 r2 : ℚ) (c : Customer) : Customer :=
  let wanderSpeed : ℚ := 1/2
  let x := c.position.x + (r1 - 1/2) * wanderSpeed
  let y := c.position.y + (r2 - 1/2) * wanderSpeed
  let x := if x < 0 then 20 else if cw < x then cw - 20 else x
  let y := if y < 0 then 20 else if ch < y then ch - 20 else y
  { c with position := ⟨x, y⟩ }

/-- `moveTowardsTrack` (customer.js lines 153-176); `rT` is the random
path-position draw used when no target point is chosen yet. -/
def moveTowardsTrack (sqrtFn : ℚ → ℚ) (path : ℚ → Point) (rT : ℚ)
    (c : Customer) : Customer :=
  let c :=
    match c.targetPoint with
    | some _ => c
    | none => { c with pathPosition := rT, targetPoint := some (path rT) }
  let tp := c.targetPoint.getD ⟨0, 0⟩
  let dx := tp.x - c.position.x
  let dy := tp.y - c.position.y
  let distance := sqrtFn (dx * dx + dy * dy)
  if 5 < distance then
    { c with position := ⟨c.position.x + dx / distance * c.approachSpeed,
                          c.position.y + dy / distance * c.approachSpeed⟩ }
  else
    { c with isOnTrack := true, position := tp }

/-- `move` (customer.js lines 120-146).  The three draws are consumed by
whichever (mutually exclusive) branch runs: the wander branch uses `r1`,
`r2`; the approach branch uses `r1`; the lap-completion logic uses `r1`,
`r2`, `r3`. -/
def move (sqrtFn : ℚ → ℚ) (path : ℚ → Point) (cw ch : ℚ) (r1 r2 r3 : ℚ)
    (c : Customer) : Customer :=
  if c.isOnTrack = false then
    if c.engaged then moveTowardsTrack sqrtFn path r1 c
    else wanderOnEdge cw ch r1 r2 c
  else
    let c := { c with pathPosition := c.pathPosition + c.movementSpeed }
    let c :=
      if 1 ≤ c.pathPosition then
        onLapComplete { c with pathPosition := 0, lapCount := c.lapCount + 1 }
          r1 r2 r3
      else c
    { c with position := path c.pathPosition }

end Customer

/-- Tower type (tower.js line 8). -/
inductive TType where
  | SALES
  | CSM
deriving DecidableEq, Repr, BEq

/-- Targeting strategy names (tower.js lines 180-212); the source uses
string keys, with unknown strings falling through to the `default`
branch of each `switch`. -/
inductive Strategy where
  | DEFAULT
  | PROSPECTS
  | UPSELL
  | WINBACK
  | ENTERPRISE
  | SMB
  | RED
  | YELLOW
  | GREEN
deriving DecidableEq, Repr, BEq

/-- One tower (tower.js constructor, lines 11-34).  `currentTargets` holds
customer ids (standing for the source's customer references; ids are unique
in the game).  Visual fields (`size`, `color`) are omitted. -/
structure Tower where
  id : ℕ
  ttype : TType
  position : Point
  level : ℕ
  range : ℚ
  attackSpeed : ℚ
  maxTargets : ℕ
  maxValueManaged : ℚ
  currentTargets : List ℕ
  targetingStrategy : Strategy
  burnoutLevel : ℚ
  attackCooldown : ℤ
deriving DecidableEq, Repr

namespace Tower

/-- `getBaseRange` (tower.js lines 40-42). -/
def getBaseRange (t : TType) : ℚ := if t = .SALES then 100 else 80

/-- `getBaseAttackSpeed` (tower.js lines 48-50). -/
def getBaseAttackSpeed (t : TType) : ℚ := if t = .SALES then 60 else 30

/-- `getBaseMaxTargets` (tower.js lines 56-58). -/
def getBaseMaxTargets (t : TType) : ℕ := if t = .SALES then 3 else 5

/-- `getBaseMaxValueManaged` (tower.js lines 64-66). -/
def getBaseMaxValueManaged (t : TType) : ℚ :=
  if t = .SALES then 1000000 else 2000000

/-- `Tower.getCost` (tower.js lines 80-82). -/
def getCost (t : TType) : ℚ := if t = .SALES then 75000 else 60000

/-- Tower constructor (tower.js lines 11-34). -/
def init (id : ℕ) (t : TType) (pos : Point) : Tower where
  id := id
  ttype := t
  position := pos
  level := 1
  range := getBaseRange t
  attackSpeed := getBaseAttackSpeed t
  maxTargets := getBaseMaxTargets t
  maxValueManaged := getBaseMaxValueManaged t
  currentTargets := []
  targetingStrategy := .DEFAULT
  burnoutLevel := 0
  attackCooldown := 0

/-- `getUpgradeCost` (tower.js lines 88-91). -/
def getUpgradeCost (tw : Tower) : ℚ :=
  jsRound (getCost tw.ttype * (3/4) * tw.level)

/-- `getUpgradeCostSum` (tower.js lines 107-114): loop `i = 1 .. level-1`. -/
def getUpgradeCostSum (tw : Tower) : ℚ :=
  (List.range tw.level).tail.foldl
    (fun (s : ℚ) (i : ℕ) => s + (jsRound (getCost tw.ttype * (3/4) * (i : ℚ)) : ℚ)) 0

/-- `getSellValue` (tower.js lines 97-101). -/
def getSellValue (tw : Tower) : ℚ :=
  jsRound ((getCost tw.ttype + tw.getUpgradeCostSum) * (7/10))

/-- `upgrade` (tower.js lines 120-130), dropping the constant `true`
result. -/
def upgrade (tw : Tower) : Tower :=
  let level := tw.level + 1
  { tw with
    level := level
    range := getBaseRange tw.ttype * (1 + (1/10) * (level - 1 : ℕ))
    attackSpeed :=
      max 10 (getBaseAttackSpeed tw.ttype * (1 - (1/20) * (level - 1 : ℕ)))
    maxTargets := getBaseMaxTargets tw.ttype + (level - 1) / 2
    maxValueManaged :=
      getBaseMaxValueManaged tw.ttype * (1 + (1/5) * (level - 1 : ℕ)) }

/-- `isInRange` (tower.js lines 137-142). -/
def isInRange (sqrtFn : ℚ → ℚ) (tw : Tower) (c : Customer) : Bool :=
  let dx := tw.position.x - c.position.x
  let dy := tw.position.y - c.position.y
  decide (sqrtFn (dx * dx + dy * dy) ≤ tw.range)

/-- Spend of the customer with id `i` in the population (0 when absent);
used to read a stored customer reference through the population list. -/
def lookupSpend (cs : List Customer) (i : ℕ) : ℚ :=
  ((cs.find? fun c => c.id == i).map Customer.spend).getD 0

/-- `getCurrentManagedValue` (tower.js lines 148-150): the reduce over the
target references' `spend`. -/
def getCurrentManagedValue (cs : List Customer) (tw : Tower) : ℚ :=
  tw.currentTargets.foldl (fun s i => s + lookupSpend cs i) 0

/-- `canHandleTarget` (tower.js lines 157-168). -/
def canHandleTarget (cs : List Customer) (tw : Tower) (c : Customer) : Bool :=
  if tw.maxTargets ≤ tw.currentTargets.length then false
  else if tw.maxValueManaged < getCurrentManagedValue cs tw + c.spend then
    false
  else true

/-- `filterTargetsByStrategy` (tower.js lines 175-216). -/
def filterTargetsByStrategy (sqrtFn : ℚ → ℚ) (tw : Tower)
    (customers : List Customer) : List Customer :=
  let targets := customers.filter fun c => isInRange sqrtFn tw c
  match tw.ttype with
  | .SALES =>
    match tw.targetingStrategy with
    | .PROSPECTS => targets.filter fun c => c.status == .PROSPECT
    | .UPSELL => targets.filter fun c => c.status == .ACTIVE
    | .WINBACK => targets.filter fun c => c.status == .CHURNED
    | .ENTERPRISE => targets.filter fun c => c.ctype == .ENTERPRISE
    | .SMB => targets.filter fun c => c.ctype == .SMALL || c.ctype == .MEDIUM
    | _ => targets
  | .CSM =>
    match tw.targetingStrategy with
    | .RED =>
      targets.filter fun c => c.status == .ACTIVE && decide (c.health ≤ 25)
    | .YELLOW =>
      targets.filter fun c =>
        c.status == .ACTIVE && decide (25 < c.health) && decide (c.health ≤ 75)
    | .GREEN =>
      targets.filter fun c => c.status == .ACTIVE && decide (75 < c.health)
    | _ => targets.filter fun c => c.status == .ACTIVE

/-- Stable insertion used to model JS `Array.prototype.sort` (stable since
ES2019): `lt y x` means `y` must come strictly before `x`; ties keep the
original order. -/
def insertSorted (lt : Customer → Customer → Bool) (x : Customer) :
    List Customer → List Customer
  | [] => [x]
  | y :: ys => if lt y x then y :: insertSorted lt x ys else x :: y :: ys

/-- Stable sort on customers (models the `.sort(comparator)` calls). -/
def sortCustomers (lt : Customer → Customer → Bool) :
    List Customer → List Customer
  | [] => []
  | x :: xs => insertSorted lt x (sortCustomers lt xs)

/-- `getPriorityTargets` (tower.js lines 223-234): SALES sorts by
descending spend, CSM by ascending health; both stable. -/
def getPriorityTargets (tw : Tower) (filtered : List Customer) :
    List Customer :=
  match tw.ttype with
  | .SALES => sortCustomers (fun a b => decide (b.spend < a.spend)) filtered
  | .CSM => sortCustomers (fun a b => decide (a.health < b.health)) filtered

/-- The target-adding loop of `updateTargeting` (tower.js lines 262-271). -/
def addTargetsLoop (cs : List Customer) (tw : Tower) :
    List Customer → Tower
  | [] => tw
  | c :: rest =>
    if !(tw.currentTargets.contains c.id) && canHandleTarget cs tw c then
      let tw' := { tw with currentTargets := tw.currentTargets ++ [c.id] }
      if tw'.maxTargets ≤ tw'.currentTargets.length then tw'
      else addTargetsLoop cs tw' rest
    else addTargetsLoop cs tw rest

/-- `updateTargeting` (tower.js lines 240-278). -/
def updateTargeting (sqrtFn : ℚ → ℚ) (customers : List Customer)
    (tw : Tower) : Tower :=
  let tw1 : Tower :=
    if tw.currentTargets = [] then
      { tw with burnoutLevel := max 0 (tw.burnoutLevel - 1/2) }
    else tw
  let tw2 : Tower :=
    { tw1 with
      currentTargets := tw1.currentTargets.filter fun (i : ℕ) =>
        match customers.find? (fun c => c.id == i) with
        | some c => isInRange sqrtFn tw1 c
        | none => false }
  if tw2.maxTargets ≤ tw2.currentTargets.length then tw2
  else
    let filtered := filterTargetsByStrategy sqrtFn tw2 customers
    let priority := getPriorityTargets tw2 filtered
    let tw3 : Tower := addTargetsLoop customers tw2 priority
    if 0 < tw3.currentTargets.length then
      { tw3 with
        burnoutLevel :=
          min 100 (tw3.burnoutLevel +
            (tw3.currentTargets.length : ℚ) / (tw3.maxTargets : ℚ) * (1/10)) }
    else tw3

/-- The per-target effect of `attackTargets` (tower.js lines 306-346);
`r` is the `Math.random()` draw used for this target (if any). -/
def attackEffect (t : TType) (burnout : ℚ) (r : ℚ) (c : Customer) :
    Customer :=
  let c := { c with engaged := true }
  match t with
  | .SALES =>
    match c.status with
    | .PROSPECT =>
      if r < (1/100) * (1 - burnout / 100) then c.convert else c
    | .ACTIVE =>
      if r < (1/200) * (1 - burnout / 100) then c.increaseSpend (1/20) else c
    | .CHURNED =>
      if r < (1/500) * (1 - burnout / 100) then c.recoverToGold else c
    | .GOLD => c
  | .CSM =>
    if c.status = .ACTIVE then
      (c.increaseHealth (1 * (1 - burnout / 100))).increaseTrust
        ((1/2) * (1 - burnout / 100))
    else c

/-- `attackTargets` (tower.js lines 306-346): apply the effect to each
current target reference, in list order; `rDraw i` is the draw used on the
target with id `i`. -/
def attackTargets (rDraw : ℕ → ℚ) (customers : List Customer) (tw : Tower) :
    List Customer :=
  tw.currentTargets.foldl
    (fun cs i =>
      cs.map fun c =>
        if c.id == i then attackEffect tw.ttype tw.burnoutLevel (rDraw i) c
        else c)
    customers

/-- `Tower.update` (tower.js lines 283-301). -/
def update (rDraw : ℕ → ℚ) (customers : List Customer) (tw : Tower) :
    Tower × List Customer :=
  if tw.currentTargets = [] then (tw, customers)
  else if 0 < tw.attackCooldown then
    ({ tw with attackCooldown := tw.attackCooldown - 1 }, customers)
  else
    let customers := attackTargets rDraw customers tw
    ({ tw with
       attackCooldown := jsRound (tw.attackSpeed * (1 + tw.burnoutLevel / 100)) },
     customers)

end Tower

/-- One entry of a stored customer snapshot, `{id, spend}`
(metrics.js lines 76, 79). -/
structure SnapEntry where
  id : ℕ
  spend : ℚ
deriving DecidableEq, Repr

/-- `currentMetrics` (metrics.js lines 17-26). -/
structure SaaSMetrics where
  arr : ℚ
  mrr : ℚ
  nrr : ℚ
  grr : ℚ
  cac : ℚ
  ltv : ℚ
  customerCount : ℕ
  churnRate : ℚ
deriving DecidableEq, Repr

/-- `MetricsCalculator` state (metrics.js constructor, lines 6-31).  Only
the `arr` and `customers` history tracks are ever read; the other history
arrays stay empty in the source and are omitted. -/
structure MetricsState where
  historyArr : List ℚ
  historyCustomers : List (List SnapEntry)
  currentMetrics : SaaSMetrics
  totalCAC : ℚ
  totalCustomersAcquired : ℕ
deriving DecidableEq, Repr

namespace MetricsState

/-- The `MetricsCalculator` constructor state (metrics.js lines 6-31). -/
def initState : MetricsState where
  historyArr := []
  historyCustomers := []
  currentMetrics := ⟨0, 0, 0, 0, 0, 0, 0, 0⟩
  totalCAC := 0
  totalCustomersAcquired := 0

/-- The `activeCustomers` filter (metrics.js line 64). -/
def activeGold (customers : List Customer) : List Customer :=
  customers.filter fun c => c.status == .ACTIVE || c.status == .GOLD

/-- Sum of `spend` over a customer list (the reduce on metrics.js
line 69). -/
def spendSum (customers : List Customer) : ℚ :=
  customers.foldl (fun s c => s + c.spend) 0

/-- The snapshot stored into history (metrics.js lines 76, 79). -/
def snapshotOf (customers : List Customer) : List SnapEntry :=
  (activeGold customers).map fun c => ⟨c.id, c.spend⟩

/-- Sum of `spend` over snapshot entries. -/
def entrySpendSum (entries : List SnapEntry) : ℚ :=
  entries.foldl (fun s e => s + e.spend) 0

/-- ARR/MRR update plus the history push with de-duplication and the
12-entry cap (metrics.js lines 68-86). -/
def pushHistory (customers : List Customer) (m : MetricsState) :
    MetricsState :=
  let currentARR := spendSum (activeGold customers)
  let m :=
    { m with currentMetrics :=
        { m.currentMetrics with arr := currentARR, mrr := currentARR / 12 } }
  if m.historyArr.length = 0 then
    { m with
      historyArr := m.historyArr ++ [currentARR]
      historyCustomers := m.historyCustomers ++ [snapshotOf customers] }
  else if m.historyArr.getLast? ≠ some currentARR then
    let m :=
      { m with
        historyArr := m.historyArr ++ [currentARR]
        historyCustomers := m.historyCustomers ++ [snapshotOf customers] }
    if 12 < m.historyArr.length then
      { m with
        historyArr := m.historyArr.tail
        historyCustomers := m.historyCustomers.tail }
    else m
  else m

/-- `prevCustomers`: the next-to-last stored snapshot (metrics.js
line 90). -/
def prevSnapshot (m : MetricsState) : List SnapEntry :=
  (m.historyCustomers.get? (m.historyCustomers.length - 2)).getD []

/-- `currCustomers`: the last stored snapshot (metrics.js line 91). -/
def currSnapshot (m : MetricsState) : List SnapEntry :=
  (m.historyCustomers.get? (m.historyCustomers.length - 1)).getD []

/-- `retainedCustomerIds` (metrics.js lines 94-95). -/
def retainedIds (prev curr : List SnapEntry) : List ℕ :=
  (prev.map SnapEntry.id).filter fun i => curr.any fun cc => cc.id == i

/-- Spend total over the snapshot entries whose id is retained
(metrics.js lines 98-105). -/
def retainedSpend (entries : List SnapEntry) (ids : List ℕ) : ℚ :=
  entrySpendSum (entries.filter fun e => ids.contains e.id)

/-- `totalPrevSpend` (metrics.js line 108). -/
def totalPrevSpend (m : MetricsState) : ℚ :=
  entrySpendSum (prevSnapshot m)

/-- The NRR/GRR block (metrics.js lines 89-118). -/
def computeRetention (m : MetricsState) : MetricsState :=
  if 2 ≤ m.historyCustomers.length then
    let prev := prevSnapshot m
    let curr := currSnapshot m
    let ids := retainedIds prev curr
    let prevRetainedSpend := retainedSpend prev ids
    let currRetainedSpend := retainedSpend curr ids
    if 0 < totalPrevSpend m then
      { m with currentMetrics :=
          { m.currentMetrics with
            grr := min (prevRetainedSpend / totalPrevSpend m) 1
            nrr := currRetainedSpend / totalPrevSpend m } }
    else m
  else m

/-- The customer-count and churn-rate block (metrics.js lines 120-129);
`churnedCount` is a JS subtraction that may be negative, modelled in ℤ. -/
def computeChurn (customers : List Customer) (m : MetricsState) :
    MetricsState :=
  let m :=
    { m with currentMetrics :=
        { m.currentMetrics with
          customerCount := (activeGold customers).length } }
  if 2 ≤ m.historyCustomers.length then
    let prevCount := (prevSnapshot m).length
    let churnedCount : ℤ := (prevCount : ℤ) - (currSnapshot m).length
    { m with currentMetrics :=
        { m.currentMetrics with
          churnRate :=
            if 0 < prevCount then (max 0 churnedCount : ℤ) / (prevCount : ℚ)
            else 0 } }
  else m

/-- The CAC/LTV block (metrics.js lines 131-147). -/
def computeCacLtv (customers : List Customer) (spentOnTowers : ℚ)
    (m : MetricsState) : MetricsState :=
  let newCustomers := (activeGold customers).filter fun c => c.lapCount == 0
  let m :=
    { m with
      totalCustomersAcquired := m.totalCustomersAcquired + newCustomers.length
      totalCAC := spentOnTowers }
  if 0 < m.totalCustomersAcquired then
    let avgCustomerValue :=
      m.currentMetrics.arr / ((max 1 (activeGold customers).length : ℕ) : ℚ)
    let avgLifespanYears : ℚ :=
      if 0 < m.currentMetrics.churnRate then 1 / m.currentMetrics.churnRate
      else 5
    { m with currentMetrics :=
        { m.currentMetrics with
          cac := m.totalCAC / (m.totalCustomersAcquired : ℚ)
          ltv := avgCustomerValue * avgLifespanYears } }
  else m

/-- `calculateMetrics` (metrics.js lines 62-150): the four blocks in source
order. -/
def calculateMetrics (customers : List Customer) (spentOnTowers : ℚ)
    (m : MetricsState) : MetricsState :=
  computeCacLtv customers spentOnTowers
    (computeChurn customers (computeRetention (pushHistory customers m)))

end MetricsState

/-- The simulation-relevant state of the `Game` controller
(game.js constructor, lines 5-37).  UI handles, the path object and the
placement-grid constants are out-of-scope collaborators; the path enters
the tick as an explicit `ℚ → Point` parameter. -/
structure GameState where
  customers : List Customer
  towers : List Tower
  metrics : MetricsState
  capital : ℚ
  towerIdCounter : ℕ
  customerIdCounter : ℕ
  frameCount : ℕ
  running : Bool
  gameOver : Bool
  productUpgradeActive : Bool
  productUpgradeProgress : ℚ
  productUpgradeCost : ℚ
deriving DecidableEq, Repr

/-- The `Math.random()` draws one call of `Game.update` may consume,
indexed by the entity they are used on (each JS draw is i.i.d., so this
indexing is an equivalent presentation of the stream): per-tick spawn
draws, per-customer movement draws, per-tower-per-customer attack draws,
and per-customer product-upgrade-completion draws. -/
structure Oracle where
  spawnRoll : ℚ
  typeRoll : ℚ
  edgeRoll : ℚ
  posRoll : ℚ
  spendRoll : ℚ
  speedRoll : ℚ
  approachRoll : ℚ
  moveRolls : ℕ → ℚ × ℚ × ℚ
  attackRolls : ℕ → ℕ → ℚ
  upgradeRolls : ℕ → ℚ × ℚ × ℚ × ℚ × ℚ

namespace Game

/-- Starting capital (game.js line 14). -/
def startingCapital : ℚ := 500000

/-- `prospectSpawnRate` (game.js line 31). -/
def prospectSpawnRate : ℚ := 1/20

/-- `canAfford` (game.js lines 475-477). -/
def canAfford (g : GameState) (amount : ℚ) : Bool :=
  decide (amount ≤ g.capital)

/-- `getRandomCustomerType` (game.js lines 102-114): the weighted walk over
`typeWeights = [0.6, 0.3, 0.1]` with fallback to the first type. -/
def getRandomCustomerType (r : ℚ) : CType :=
  if r < 3/5 then .SMALL
  else if r < 9/10 then .MEDIUM
  else if r < 1 then .ENTERPRISE
  else .SMALL

/-- `Customer.spawnAtMapEdge` (customer.js lines 341-390); `cw`/`ch` are
the canvas dimensions. -/
def spawnAtMapEdge (cw ch : ℚ) (o : Oracle) (id : ℕ) (t : CType) :
    Customer :=
  let edge := ⌊o.edgeRoll * 4⌋
  let pos : Point :=
    if edge = 0 then ⟨o.posRoll * cw, -20⟩
    else if edge = 1 then ⟨cw + 20, o.posRoll * ch⟩
    else if edge = 2 then ⟨o.posRoll * cw, ch + 20⟩
    else if edge = 3 then ⟨-20, o.posRoll * ch⟩
    else ⟨0, 0⟩
  Customer.init id t pos o.spendRoll o.speedRoll o.approachRoll

/-- `spawnProspect` (game.js lines 81-96). -/
def spawnProspect (cw ch : ℚ) (o : Oracle) (g : GameState) : GameState :=
  let t := getRandomCustomerType o.typeRoll
  let c := spawnAtMapEdge cw ch o g.customerIdCounter t
  { g with
    customers := g.customers ++ [c]
    customerIdCounter := g.customerIdCounter + 1 }

/-- `placeTower` (game.js lines 366-387): returns the new state together
with the placed tower, or `none` on the insufficient-funds rejection. -/
def placeTower (g : GameState) (t : TType) (pos : Point) :
    GameState × Option Tower :=
  let cost := Tower.getCost t
  if ¬ canAfford g cost then (g, none)
  else
    let tower := Tower.init g.towerIdCounter t pos
    ({ g with
       towers := g.towers ++ [tower]
       towerIdCounter := g.towerIdCounter + 1
       capital := g.capital - cost },
     some tower)

/-- `upgradeTower` (game.js lines 394-411).  The source mutates the passed
tower reference; this is modelled as an in-place update of the tower with
the same id (ids are unique).  `tower.upgrade()` always returns `true` in
the source, so its dead `false` branch is not modelled. -/
def upgradeTower (g : GameState) (t : Tower) : GameState × Bool :=
  let cost := t.getUpgradeCost
  if ¬ canAfford g cost then (g, false)
  else
    ({ g with
       towers := g.towers.map fun tw => if tw.id = t.id then tw.upgrade else tw
       capital := g.capital - cost },
     true)

/-- `sellTower` (game.js lines 418-436): `indexOf` reference lookup is
modelled as lookup of the first tower with the same id. -/
def sellTower (g : GameState) (t : Tower) : GameState × Bool :=
  if ¬ g.towers.any (fun tw => tw.id == t.id) then (g, false)
  else
    ({ g with
       towers := g.towers.eraseP fun tw => tw.id == t.id
       capital := g.capital + t.getSellValue },
     true)

/-- `startProductUpgrade` (game.js lines 442-468).  Note the source writes
`productUpgradeCost` *before* the affordability check. -/
def startProductUpgrade (g : GameState) : GameState × Bool :=
  if g.productUpgradeActive then (g, false)
  else
    let arr := g.metrics.currentMetrics.arr
    let g := { g with productUpgradeCost := max 50000 (arr * (1/5)) }
    if ¬ canAfford g g.productUpgradeCost then (g, false)
    else
      ({ g with
         capital := g.capital - g.productUpgradeCost
         productUpgradeActive := true
         productUpgradeProgress := 0 },
       true)

/-- The per-customer effect of `completeProductUpgrade`
(game.js lines 241-262); the five draws are the positive/negative roll,
the health magnitude, the trust magnitude, the spend roll and the spend
magnitude. -/
def productEffect (d1 d2 d3 d4 d5 : ℚ) (c : Customer) : Customer :=
  if c.status = .ACTIVE ∨ c.status = .GOLD then
    if d1 < 4/5 then
      let c := c.increaseHealth (d2 * 20)
      let c := c.increaseTrust (d3 * 10)
      if d4 < 3/10 then c.increaseSpend (1/20 + d5 * (1/10)) else c
    else
      { c with
        health := max 0 (c.health - d2 * 10)
        trust := max 0 (c.trust - d3 * 5) }
  else c

/-- `completeProductUpgrade` (game.js lines 232-263). -/
def completeProductUpgrade (o : Oracle) (g : GameState) : GameState :=
  let g :=
    { g with productUpgradeActive := false, productUpgradeProgress := 0 }
  { g with
    customers := g.customers.map fun (c : Customer) =>
      let (d1, d2, d3, d4, d5) := o.upgradeRolls c.id
      productEffect d1 d2 d3 d4 d5 c }

/-- `updateProductUpgrade` (game.js lines 216-227). -/
def updateProductUpgrade (o : Oracle) (g : GameState) : GameState :=
  let g := { g with productUpgradeProgress := g.productUpgradeProgress + 1/1000 }
  if 1 ≤ g.productUpgradeProgress then completeProductUpgrade o g else g

/-- `totalSpentOnTowers` (game.js lines 270-274). -/
def totalSpentOnTowers (g : GameState) : ℚ :=
  g.towers.foldl
    (fun s tw => s + Tower.getCost tw.ttype + tw.getUpgradeCostSum) 0

/-- `updateMetrics` (game.js lines 268-295), minus the DOM updates. -/
def updateMetrics (g : GameState) : GameState :=
  { g with
    metrics :=
      MetricsState.calculateMetrics g.customers (totalSpentOnTowers g)
        g.metrics }

/-- `checkGameOver` (game.js lines 200-211), minus the modal display. -/
def checkGameOver (g : GameState) : GameState :=
  if (MetricsState.activeGold g.customers).length = 0 ∧
      g.capital < Tower.getCost .CSM then
    { g with gameOver := true, running := false }
  else g

/-- `Game.update` (game.js lines 166-195) without the final
`checkGameOver`: frame counter, stochastic spawn, customer movement, the
sequential tower targeting/attack loop, product-upgrade progress, and the
metrics recalculation, in source order. -/
def tickCore (sqrtFn : ℚ → ℚ) (path : ℚ → Point) (cw ch : ℚ) (o : Oracle)
    (g : GameState) : GameState :=
  let g := { g with frameCount := g.frameCount + 1 }
  let g := if o.spawnRoll < prospectSpawnRate then spawnProspect cw ch o g
           else g
  let g :=
    { g with
      customers := g.customers.map fun (c : Customer) =>
        let (r1, r2, r3) := o.moveRolls c.id
        Customer.move sqrtFn path cw ch r1 r2 r3 c }
  let p :=
    g.towers.foldl
      (fun (acc : List Tower × List Customer) tw =>
        let tw1 := Tower.updateTargeting sqrtFn acc.2 tw
        let r := Tower.update (o.attackRolls tw1.id) acc.2 tw1
        (acc.1 ++ [r.1], r.2))
      ([], g.customers)
  let g := { g with towers := p.1, customers := p.2 }
  let g := if g.productUpgradeActive then updateProductUpgrade o g else g
  updateMetrics g

/-- `Game.update` (game.js lines 166-195): one full simulation tick. -/
def update (sqrtFn : ℚ → ℚ) (path : ℚ → Point) (cw ch : ℚ) (o : Oracle)
    (g : GameState) : GameState :=
  checkGameOver (tickCore sqrtFn path cw ch o g)

end Game

/-! ### Supporting lemmas about `Customer` operations -/

lemma decideRenewal_trust (c : Customer) (r1 r2 r3 : ℚ) :
    (c.decideRenewal r1 r2 r3).trust = c.trust := by
  unfold Customer.decideRenewal; split_ifs <;> rfl

lemma decideRenewal_health (c : Customer) (r1 r2 r3 : ℚ) :
    (c.decideRenewal r1 r2 r3).health = c.health := by
  unfold Customer.decideRenewal; split_ifs <;> rfl

lemma decideRenewal_isOnTrack (c : Customer) (r1 r2 r3 : ℚ) :
    (c.decideRenewal r1 r2 r3).isOnTrack = c.isOnTrack := by
  unfold Customer.decideRenewal; split_ifs <;> rfl

lemma onLapComplete_isOnTrack (c : Customer) (r1 r2 r3 : ℚ) :
    (c.onLapComplete r1 r2 r3).isOnTrack = c.isOnTrack := by
  unfold Customer.onLapComplete
  split_ifs <;> simp [decideRenewal_isOnTrack]

lemma wanderOnEdge_eta (cw ch r1 r2 : ℚ) (c : Customer) :
    ∃ p : Point, Customer.wanderOnEdge cw ch r1 r2 c = { c with position := p } := by
  exact ⟨_, rfl⟩

/-- Claim C10: a newly constructed customer starts as a PROSPECT with
health 100, trust 50 (not 100), lapCount 0, pathPosition 0, off-track and
unengaged; with the churn probability `(1 - trust/100) * (1 - health/100)`
this makes the trust factor 1/2 while the health factor is 0, so trust is
the binding retention risk at creation. -/
theorem claim_C10 (id : ℕ) (t : CType) (pos : Point) (r1 r2 r3 : ℚ) :
    (Customer.init id t pos r1 r2 r3).status = CStatus.PROSPECT ∧
    (Customer.init id t pos r1 r2 r3).health = 100 ∧
    (Customer.init id t pos r1 r2 r3).trust = 50 ∧
    (Customer.init id t pos r1 r2 r3).lapCount = 0 ∧
    (Customer.init id t pos r1 r2 r3).pathPosition = 0 ∧
    (Customer.init id t pos r1 r2 r3).isOnTrack = false ∧
    (Customer.init id t pos r1 r2 r3).engaged = false ∧
    (1 - (Customer.init id t pos r1 r2 r3).trust / 100) = 1/2 ∧
    (1 - (Customer.init id t pos r1 r2 r3).health / 100) = 0 ∧
    Customer.churnProbability (Customer.init id t pos r1 r2 r3) = 0 := by
  refine ⟨rfl, rfl, rfl, rfl, rfl, rfl, rfl, by norm_num [Customer.init],
    by norm_num [Customer.init], ?_⟩
  norm_num [Customer.churnProbability, Customer.init]

/-- Claim C3: when a non-PROSPECT customer wraps past the lap boundary, an
ACTIVE customer churns exactly when the first draw is below
`(1 - trust/100) * (1 - health/100)`; on survival the spend is multiplied
by `1 + r3/10 ∈ [1, 1.1)` exactly when the second draw is below `0.2`;
afterwards, independent of the renewal outcome, trust and health each
decrease by 5, flooring at 0.  A PROSPECT undergoes neither the renewal
decision nor the decay. -/
theorem claim_C3 (c : Customer) (r1 r2 r3 : ℚ) :
    Customer.churnProbability c = (1 - c.trust / 100) * (1 - c.health / 100) ∧
    (c.status = CStatus.PROSPECT → c.onLapComplete r1 r2 r3 = c) ∧
    (c.status ≠ CStatus.PROSPECT →
      (c.onLapComplete r1 r2 r3).trust = max 0 (c.trust - 5) ∧
      (c.onLapComplete r1 r2 r3).health = max 0 (c.health - 5)) ∧
    (c.status = CStatus.ACTIVE →
      ((c.onLapComplete r1 r2 r3).status = CStatus.CHURNED ↔
        r1 < Customer.churnProbability c) ∧
      (r1 < Customer.churnProbability c →
        (c.onLapComplete r1 r2 r3).spend = c.spend) ∧
      (¬ r1 < Customer.churnProbability c →
        (c.onLapComplete r1 r2 r3).status = CStatus.ACTIVE ∧
        (c.onLapComplete r1 r2 r3).spend =
          if r2 < 1/5 then c.spend * (1 + r3 * (1/10)) else c.spend)) ∧
    (c.status = CStatus.CHURNED ∨ c.status = CStatus.GOLD →
      (c.onLapComplete r1 r2 r3).status = c.status ∧
      (c.onLapComplete r1 r2 r3).spend = c.spend) ∧
    (0 ≤ r3 → r3 < 1 →
      1 ≤ 1 + r3 * (1/10) ∧ 1 + r3 * (1/10) < 11/10) := by
  refine ⟨by unfold Customer.churnProbability; ring, ?_, ?_, ?_, ?_, ?_⟩
  · intro h
    simp [Customer.onLapComplete, h]
  · intro h
    unfold Customer.onLapComplete
    rw [if_neg h]
    by_cases hA : c.status = CStatus.ACTIVE <;>
      simp [hA, decideRenewal_trust, decideRenewal_health]
  · intro hA
    unfold Customer.onLapComplete Customer.decideRenewal
    rw [if_neg (by simp [hA]), if_pos hA]
    split_ifs with h1 h2 <;> simp_all
  · intro hCG
    have hP : c.status ≠ CStatus.PROSPECT := by
      rcases hCG with h | h <;> simp [h]
    have hA : c.status ≠ CStatus.ACTIVE := by
      rcases hCG with h | h <;> simp [h]
    unfold Customer.onLapComplete
    rw [if_neg hP, if_neg hA]
    exact ⟨rfl, rfl⟩
  · intro h0 h1
    constructor <;> nlinarith

/-- Concrete ACTIVE customer with zero trust and health, used to witness
claim C3 (churn probability 1). -/
def cWitC3 : Customer where
  id := 0
  ctype := .SMALL
  status := .ACTIVE
  position := ⟨0, 0⟩
  health := 0
  spend := 1000
  trust := 0
  lapCount := 3
  pathPosition := 0
  movementSpeed := 1/1000
  isOnTrack := true
  targetPoint := none
  approachSpeed := 1
  engaged := true

theorem claim_C3_witness :
    (cWitC3.onLapComplete (1/2) 0 0).status = CStatus.CHURNED ∧
    (cWitC3.onLapComplete (1/2) 0 0).trust = 0 := by
  have h := claim_C3 cWitC3 (1/2) 0 0
  refine ⟨(h.2.2.2.1 rfl).1.mpr
    (by norm_num [cWitC3, Customer.churnProbability]), ?_⟩
  have ht := (h.2.2.1 (by decide)).1
  rw [ht]; norm_num [cWitC3]

/-- Claim C8: a movement step of a customer with `engaged = false` never
flips `isOnTrack` (in particular never makes it true), and an off-track
unengaged customer stays off-track with its path-approach state
(`pathPosition`, `lapCount`, `targetPoint`) and lifecycle state untouched:
it only wanders in place. -/
theorem claim_C8 (sqrtFn : ℚ → ℚ) (path : ℚ → Point) (cw ch r1 r2 r3 : ℚ)
    (c : Customer) (h : c.engaged = false) :
    (Customer.move sqrtFn path cw ch r1 r2 r3 c).isOnTrack = c.isOnTrack ∧
    (c.isOnTrack = false →
      (Customer.move sqrtFn path cw ch r1 r2 r3 c).isOnTrack = false ∧
      (Customer.move sqrtFn path cw ch r1 r2 r3 c).pathPosition =
        c.pathPosition ∧
      (Customer.move sqrtFn path cw ch r1 r2 r3 c).lapCount = c.lapCount ∧
      (Customer.move sqrtFn path cw ch r1 r2 r3 c).targetPoint =
        c.targetPoint ∧
      (Customer.move sqrtFn path cw ch r1 r2 r3 c).status = c.status ∧
      (Customer.move sqrtFn path cw ch r1 r2 r3 c).engaged = false) := by
  by_cases hT : c.isOnTrack = false
  · constructor
    · simp [Customer.move, hT, h, Customer.wanderOnEdge]
    · intro _
      simp [Customer.move, hT, h, Customer.wanderOnEdge]
  · have hT' : c.isOnTrack = true := by
      cases hx : c.isOnTrack
      · exact absurd hx hT
      · rfl
    refine ⟨?_, fun hf => absurd hf hT⟩
    simp only [Customer.move, hT', Bool.true_eq_false, if_false]
    split_ifs with hl <;> simp [onLapComplete_isOnTrack, hT']

/-- Concrete off-track unengaged customer used to witness claim C8. -/
def cWitC8 : Customer where
  id := 7
  ctype := .MEDIUM
  status := .PROSPECT
  position := ⟨5, 5⟩
  health := 100
  spend := 30000
  trust := 50
  lapCount := 0
  pathPosition := 0
  movementSpeed := 1/1000
  isOnTrack := false
  targetPoint := none
  approachSpeed := 1
  engaged := false

theorem claim_C8_witness :
    (Customer.move (fun q => q) (fun _ => ⟨0, 0⟩) 800 600 (1/4) (3/4) 0
        cWitC8).isOnTrack = false ∧
    (Customer.move (fun q => q) (fun _ => ⟨0, 0⟩) 800 600 (1/4) (3/4) 0
        cWitC8).pathPosition = cWitC8.pathPosition := by
  have h := claim_C8 (fun q => q) (fun _ => ⟨0, 0⟩) 800 600 (1/4) (3/4) 0
    cWitC8 rfl
  exact ⟨(h.2 rfl).1, (h.2 rfl).2.1⟩

/-- SALES tower with an empty target list and a pending cooldown, used to
refute claim C2's unconditional decrement. -/
def twC2 : Tower where
  id := 0
  ttype := .SALES
  position := ⟨0, 0⟩
  level := 1
  range := 100
  attackSpeed := 60
  maxTargets := 3
  maxValueManaged := 1000000
  currentTargets := []
  targetingStrategy := .DEFAULT
  burnoutLevel := 0
  attackCooldown := 5

/-- Counterexample to claim C2: `Tower.update` returns before touching the
cooldown whenever `currentTargets` is empty, so a tower with cooldown 5 and
no targets keeps cooldown 5 instead of decrementing it to 4. -/
theorem claim_C2_counterexample :
    twC2.attackCooldown = 5 ∧
    (Tower.update (fun _ => 0) [] twC2).1.attackCooldown = 5 ∧
    (Tower.update (fun _ => 0) [] twC2).1.attackCooldown ≠
      twC2.attackCooldown - 1 := by
  refine ⟨rfl, ?_, ?_⟩ <;> simp [Tower.update, twC2]

/-- Claim C2 (amended): the action cadence only applies while the target
list is nonempty.  With targets: the tower acts only when the cooldown is
not positive; a tick with positive cooldown just decrements it; after
acting the cooldown resets to `round(attackSpeed × (1 + burnout/100))`.
With an empty target list `Tower.update` does nothing at all — in
particular a nonzero cooldown is not decremented. -/
theorem claim_C2 (tw : Tower) (rDraw : ℕ → ℚ) (cs : List Customer) :
    (tw.currentTargets = [] → Tower.update rDraw cs tw = (tw, cs)) ∧
    (tw.currentTargets ≠ [] → 0 < tw.attackCooldown →
      Tower.update rDraw cs tw =
        ({ tw with attackCooldown := tw.attackCooldown - 1 }, cs)) ∧
    (tw.currentTargets ≠ [] → ¬ 0 < tw.attackCooldown →
      (Tower.update rDraw cs tw).1.attackCooldown =
        jsRound (tw.attackSpeed * (1 + tw.burnoutLevel / 100)) ∧
      (Tower.update rDraw cs tw).2 = Tower.attackTargets rDraw cs tw) := by
  unfold Tower.update
  refine ⟨fun h => ?_, fun h h2 => ?_, fun h h2 => ?_⟩
  · rw [if_pos h]
  · rw [if_neg h, if_pos h2]
  · rw [if_neg h, if_neg h2]
    exact ⟨rfl, rfl⟩

theorem claim_C2_witness :
    (Tower.update (fun _ => 0) [] twC2 = (twC2, [])) ∧
    (Tower.update (fun _ => 0) []
        { twC2 with currentTargets := [4] }).1.attackCooldown = 4 := by
  refine ⟨(claim_C2 twC2 (fun _ => 0) []).1 rfl, ?_⟩
  have h := (claim_C2 { twC2 with currentTargets := [4] } (fun _ => 0) []).2.1
    (by simp) (by norm_num [twC2])
  rw [h]; norm_num [twC2]

lemma getCost_SALES : Tower.getCost TType.SALES = 75000 := rfl

lemma getCost_CSM : Tower.getCost TType.CSM = 60000 := rfl

/-- Claim C7: placing a tower of either type and immediately selling it at
level 1 credits back exactly `round(0.7 × baseCost)`, which is strictly
less than the base cost debited at placement, so the round trip is a
strict net loss of capital. -/
theorem claim_C7 (g : GameState) (t : TType) (pos : Point)
    (h : Tower.getCost t ≤ g.capital) :
    (Game.placeTower g t pos).2 = some (Tower.init g.towerIdCounter t pos) ∧
    (Game.placeTower g t pos).1.capital = g.capital - Tower.getCost t ∧
    (Tower.init g.towerIdCounter t pos).getSellValue =
      (jsRound (Tower.getCost t * (7/10)) : ℚ) ∧
    (Game.sellTower (Game.placeTower g t pos).1
        (Tower.init g.towerIdCounter t pos)).2 = true ∧
    (Game.sellTower (Game.placeTower g t pos).1
        (Tower.init g.towerIdCounter t pos)).1.capital =
      g.capital - Tower.getCost t + (jsRound (Tower.getCost t * (7/10)) : ℚ) ∧
    (Game.sellTower (Game.placeTower g t pos).1
        (Tower.init g.towerIdCounter t pos)).1.capital < g.capital := by
  have hafford : Game.canAfford g (Tower.getCost t) = true := by
    simp [Game.canAfford, h]
  have hplace :
      Game.placeTower g t pos =
        ({ g with
           towers := g.towers ++ [Tower.init g.towerIdCounter t pos]
           towerIdCounter := g.towerIdCounter + 1
           capital := g.capital - Tower.getCost t },
         some (Tower.init g.towerIdCounter t pos)) := by
    unfold Game.placeTower
    rw [if_neg (by simp [hafford])]
  have hsell : (Tower.init g.towerIdCounter t pos).getSellValue =
      (jsRound (Tower.getCost t * (7/10)) : ℚ) := by
    cases t <;>
      norm_num [Tower.getSellValue, Tower.getUpgradeCostSum, Tower.init,
        Tower.getCost, List.range_succ]
  have hany :
      (g.towers ++ [Tower.init g.towerIdCounter t pos]).any
        (fun tw => tw.id == (Tower.init g.towerIdCounter t pos).id) = true := by
    simp
  have hloss : (jsRound (Tower.getCost t * (7/10)) : ℚ) < Tower.getCost t := by
    cases t <;> simp only [getCost_SALES, getCost_CSM, jsRound] <;> norm_num
  refine ⟨by rw [hplace], by rw [hplace], hsell, ?_, ?_, ?_⟩
  · rw [hplace]
    unfold Game.sellTower
    rw [if_neg (by simp [hany])]
  · rw [hplace]
    unfold Game.sellTower
    rw [if_neg (by simp [hany])]
    simp [hsell]
  · rw [hplace]
    unfold Game.sellTower
    rw [if_neg (by simp [hany])]
    simp only [hsell]
    have hc : (0:ℚ) < Tower.getCost t := by
      cases t <;> simp only [getCost_SALES, getCost_CSM] <;> norm_num
    linarith [hloss]

theorem claim_C7_witness :
    (Game.sellTower
        (Game.placeTower
          { customers := [], towers := [], metrics := MetricsState.initState,
            capital := 500000, towerIdCounter := 0, customerIdCounter := 0,
            frameCount := 0, running := true, gameOver := false,
            productUpgradeActive := false, productUpgradeProgress := 0,
            productUpgradeCost := 0 }
          TType.SALES ⟨50, 50⟩).1
        (Tower.init 0 TType.SALES ⟨50, 50⟩)).1.capital = 477500 := by
  have h := claim_C7
    { customers := [], towers := [], metrics := MetricsState.initState,
      capital := 500000, towerIdCounter := 0, customerIdCounter := 0,
      frameCount := 0, running := true, gameOver := false,
      productUpgradeActive := false, productUpgradeProgress := 0,
      productUpgradeCost := 0 }
    TType.SALES ⟨50, 50⟩ (by norm_num [Tower.getCost])
  rw [h.2.2.2.2.1]
  norm_num [Tower.getCost, jsRound]

/-- State with a large stored ARR and no capital: `startProductUpgrade`
must reject it for insufficient funds. -/
def gC6 : GameState where
  customers := []
  towers := []
  metrics :=
    { MetricsState.initState with
      currentMetrics :=
        { MetricsState.initState.currentMetrics with arr := 1000000 } }
  capital := 0
  towerIdCounter := 0
  customerIdCounter := 0
  frameCount := 0
  running := true
  gameOver := false
  productUpgradeActive := false
  productUpgradeProgress := 0
  productUpgradeCost := 0

/-- Counterexample to claim C6: `startProductUpgrade` writes
`productUpgradeCost = max(50000, arr × 0.2)` *before* the affordability
check, so a rejected call (insufficient funds) still mutates that field:
here it returns `false` yet changes `productUpgradeCost` from 0 to
200000. -/
theorem claim_C6_counterexample :
    (Game.startProductUpgrade gC6).2 = false ∧
    gC6.productUpgradeCost = 0 ∧
    (Game.startProductUpgrade gC6).1.productUpgradeCost = 200000 := by
  refine ⟨?_, rfl, ?_⟩ <;>
    norm_num [Game.startProductUpgrade, Game.canAfford, gC6,
      MetricsState.initState, max_def]

/-- Claim C6 (amended): a failing `placeTower`, `upgradeTower` or
`sellTower` leaves the whole state unchanged; a failing
`startProductUpgrade` leaves capital, towers, customers, the active flag
and the progress unchanged, but may overwrite `productUpgradeCost` (it is
recomputed from the current ARR before the affordability check). -/
theorem claim_C6 (g : GameState) (t : TType) (pos : Point) (tw : Tower) :
    ((Game.placeTower g t pos).2 = none → (Game.placeTower g t pos).1 = g) ∧
    ((Game.upgradeTower g tw).2 = false → (Game.upgradeTower g tw).1 = g) ∧
    ((Game.sellTower g tw).2 = false → (Game.sellTower g tw).1 = g) ∧
    ((Game.startProductUpgrade g).2 = false →
      (Game.startProductUpgrade g).1.capital = g.capital ∧
      (Game.startProductUpgrade g).1.towers = g.towers ∧
      (Game.startProductUpgrade g).1.customers = g.customers ∧
      (Game.startProductUpgrade g).1.productUpgradeActive =
        g.productUpgradeActive ∧
      (Game.startProductUpgrade g).1.productUpgradeProgress =
        g.productUpgradeProgress) := by
  refine ⟨fun h => ?_, fun h => ?_, fun h => ?_, fun h => ?_⟩
  · simp only [Game.placeTower] at h ⊢
    split_ifs at h ⊢ with h1
    rfl
  · simp only [Game.upgradeTower] at h ⊢
    split_ifs at h ⊢ with h1
    rfl
  · simp only [Game.sellTower] at h ⊢
    split_ifs at h ⊢ with h1
    rfl
  · simp only [Game.startProductUpgrade] at h ⊢
    split_ifs at h ⊢ with h1 h2
    · exact ⟨rfl, rfl, rfl, rfl, rfl⟩
    · exact ⟨rfl, rfl, rfl, rfl, rfl⟩

theorem claim_C6_witness :
    (Game.sellTower gC6 twC2).1 = gC6 ∧
    (Game.startProductUpgrade gC6).1.capital = gC6.capital := by
  have h := claim_C6 gC6 TType.SALES ⟨0, 0⟩ twC2
  refine ⟨h.2.2.1 ?_, (h.2.2.2 ?_).1⟩
  · unfold Game.sellTower
    rw [if_pos (by simp [gC6])]
  · norm_num [Game.startProductUpgrade, Game.canAfford, gC6,
      MetricsState.initState, max_def]

/-! ### Tick-level preservation lemmas -/

lemma checkGameOver_capital (g : GameState) :
    (Game.checkGameOver g).capital = g.capital := by
  unfold Game.checkGameOver; split_ifs <;> rfl

lemma checkGameOver_customers (g : GameState) :
    (Game.checkGameOver g).customers = g.customers := by
  unfold Game.checkGameOver; split_ifs <;> rfl

lemma tickCore_capital (sqrtFn : ℚ → ℚ) (path : ℚ → Point) (cw ch : ℚ)
    (o : Oracle) (g : GameState) :
    (Game.tickCore sqrtFn path cw ch o g).capital = g.capital := by
  unfold Game.tickCore Game.spawnProspect Game.updateMetrics
    Game.updateProductUpgrade Game.completeProductUpgrade
  dsimp only
  split_ifs <;> rfl

lemma tickCore_gameOver (sqrtFn : ℚ → ℚ) (path : ℚ → Point) (cw ch : ℚ)
    (o : Oracle) (g : GameState) :
    (Game.tickCore sqrtFn path cw ch o g).gameOver = g.gameOver := by
  unfold Game.tickCore Game.spawnProspect Game.updateMetrics
    Game.updateProductUpgrade Game.completeProductUpgrade
  dsimp only
  split_ifs <;> rfl

lemma tickCore_customers_nil (sqrtFn : ℚ → ℚ) (path : ℚ → Point)
    (cw ch : ℚ) (o : Oracle) (g : GameState)
    (hs : ¬ o.spawnRoll < Game.prospectSpawnRate) (hc : g.customers = [])
    (ht : g.towers = []) (hp : g.productUpgradeActive = false) :
    (Game.tickCore sqrtFn path cw ch o g).customers = [] := by
  unfold Game.tickCore Game.updateMetrics
  dsimp only
  rw [if_neg hs, hc, ht, hp]
  simp

/-- Claim C5: after a tick started in a non-terminal state, the simulation
is terminal exactly when the count of ACTIVE/GOLD customers is zero and
capital is strictly below the cheapest tower's base cost, which is the CSM
cost 60000 (so capital 59999 ends the run and capital 60000 does not). -/
theorem claim_C5 (sqrtFn : ℚ → ℚ) (path : ℚ → Point) (cw ch : ℚ)
    (o : Oracle) (g : GameState) (h : g.gameOver = false) :
    Tower.getCost TType.CSM = 60000 ∧
    ((Game.update sqrtFn path cw ch o g).gameOver = true ↔
      ((MetricsState.activeGold
          (Game.tickCore sqrtFn path cw ch o g).customers).length = 0 ∧
        g.capital < 60000)) := by
  refine ⟨rfl, ?_⟩
  unfold Game.update Game.checkGameOver
  have hc := tickCore_capital sqrtFn path cw ch o g
  have hg := tickCore_gameOver sqrtFn path cw ch o g
  split_ifs with hcond
  · refine iff_of_true rfl ⟨hcond.1, ?_⟩
    rw [← getCost_CSM, ← hc]
    exact hcond.2
  · refine iff_of_false ?_ ?_
    · rw [hg, h]; simp
    · intro hx
      exact hcond ⟨hx.1, by rw [hc, getCost_CSM]; exact hx.2⟩

/-- An oracle whose draws are all outside the trigger windows (spawn roll 1
suppresses spawning). -/
def oTrivial : Oracle where
  spawnRoll := 1
  typeRoll := 0
  edgeRoll := 0
  posRoll := 0
  spendRoll := 0
  speedRoll := 0
  approachRoll := 0
  moveRolls := fun _ => (1, 1, 1)
  attackRolls := fun _ _ => 1
  upgradeRolls := fun _ => (1, 1, 1, 1, 1)

/-- Empty population, no towers, capital exactly one dollar below the CSM
base cost. -/
def gWitC5 : GameState where
  customers := []
  towers := []
  metrics := MetricsState.initState
  capital := 59999
  towerIdCounter := 0
  customerIdCounter := 0
  frameCount := 0
  running := true
  gameOver := false
  productUpgradeActive := false
  productUpgradeProgress := 0
  productUpgradeCost := 0

theorem claim_C5_witness :
    (Game.update (fun q => q) (fun _ => ⟨0, 0⟩) 800 600 oTrivial
        gWitC5).gameOver = true ∧
    (Game.update (fun q => q) (fun _ => ⟨0, 0⟩) 800 600 oTrivial
        { gWitC5 with capital := 60000 }).gameOver = false := by
  have hns : ¬ oTrivial.spawnRoll < Game.prospectSpawnRate := by
    show ¬ (1 : ℚ) < 1/20
    norm_num
  have hcust : (Game.tickCore (fun q => q) (fun _ => ⟨0, 0⟩) 800 600 oTrivial
      gWitC5).customers = [] :=
    tickCore_customers_nil _ _ _ _ _ _ hns rfl rfl rfl
  constructor
  · exact (claim_C5 (fun q => q) (fun _ => ⟨0, 0⟩) 800 600 oTrivial gWitC5
      rfl).2.mpr ⟨by rw [hcust]; rfl, by norm_num [gWitC5]⟩
  · have h := (claim_C5 (fun q => q) (fun _ => ⟨0, 0⟩) 800 600 oTrivial
      { gWitC5 with capital := 60000 } rfl).2
    cases hb : (Game.update (fun q => q) (fun _ => ⟨0, 0⟩) 800 600 oTrivial
        { gWitC5 with capital := 60000 }).gameOver
    · rfl
    · have h2 := (h.mp hb).2
      norm_num [gWitC5] at h2

/-! ### Nonnegativity of credited amounts -/

lemma jsRound_nonneg (q : ℚ) (h : 0 ≤ q) : 0 ≤ jsRound q := by
  unfold jsRound
  rw [Int.le_floor]
  push_cast
  linarith

lemma getCost_nonneg (t : TType) : 0 ≤ Tower.getCost t := by
  cases t <;> simp only [getCost_SALES, getCost_CSM] <;> norm_num

lemma foldl_add_nonneg (f : ℕ → ℚ) (hf : ∀ i, 0 ≤ f i) :
    ∀ (l : List ℕ) (a : ℚ), 0 ≤ a → 0 ≤ l.foldl (fun s i => s + f i) a := by
  intro l
  induction l with
  | nil => intro a ha; exact ha
  | cons x xs ih =>
    intro a ha
    exact ih (a + f x) (by have := hf x; linarith)

lemma getUpgradeCostSum_nonneg (tw : Tower) : 0 ≤ tw.getUpgradeCostSum := by
  unfold Tower.getUpgradeCostSum
  refine foldl_add_nonneg
    (fun i => (jsRound (Tower.getCost tw.ttype * (3/4) * i) : ℚ))
    (fun i => ?_) (List.range tw.level).tail 0 le_rfl
  have h1 : 0 ≤ Tower.getCost tw.ttype * (3/4) * (i : ℚ) := by
    have := getCost_nonneg tw.ttype
    positivity
  show (0:ℚ) ≤ ((jsRound (Tower.getCost tw.ttype * (3/4) * (i : ℚ)) : ℤ) : ℚ)
  exact_mod_cast jsRound_nonneg _ h1

lemma getSellValue_nonneg (tw : Tower) : 0 ≤ tw.getSellValue := by
  unfold Tower.getSellValue
  have h1 := getCost_nonneg tw.ttype
  have h2 := getUpgradeCostSum_nonneg tw
  have h3 : 0 ≤ (Tower.getCost tw.ttype + tw.getUpgradeCostSum) * (7/10) := by
    positivity
  exact_mod_cast jsRound_nonneg _ h3

/-- Claim C9: the starting capital is 500000; every debiting operation is
guarded by an affordability check, `sellTower` credits a nonnegative
amount, and a tick never touches capital — so `capital ≥ 0` is preserved
by every operation and every tick. -/
theorem claim_C9 (g : GameState) (t : TType) (pos : Point) (tw : Tower)
    (sqrtFn : ℚ → ℚ) (path : ℚ → Point) (cw ch : ℚ) (o : Oracle)
    (h : 0 ≤ g.capital) :
    Game.startingCapital = 500000 ∧
    0 ≤ (Game.placeTower g t pos).1.capital ∧
    0 ≤ (Game.upgradeTower g tw).1.capital ∧
    0 ≤ (Game.sellTower g tw).1.capital ∧
    0 ≤ (Game.startProductUpgrade g).1.capital ∧
    (Game.update sqrtFn path cw ch o g).capital = g.capital := by
  refine ⟨rfl, ?_, ?_, ?_, ?_, ?_⟩
  · simp only [Game.placeTower]
    split_ifs with h1
    · have h2 : Tower.getCost t ≤ g.capital := by
        simpa [Game.canAfford] using h1
      show 0 ≤ g.capital - Tower.getCost t
      linarith
    · exact h
  · simp only [Game.upgradeTower]
    split_ifs with h1
    · have h2 : tw.getUpgradeCost ≤ g.capital := by
        simpa [Game.canAfford] using h1
      show 0 ≤ g.capital - tw.getUpgradeCost
      linarith
    · exact h
  · simp only [Game.sellTower]
    split_ifs with h1
    · have h2 := getSellValue_nonneg tw
      show 0 ≤ g.capital + tw.getSellValue
      linarith
    · exact h
  · simp only [Game.startProductUpgrade]
    split_ifs with h1 h2
    · exact h
    · have h3 : max 50000 (g.metrics.currentMetrics.arr * (1/5)) ≤
          g.capital := by
        simpa [Game.canAfford] using h2
      show 0 ≤ g.capital - max 50000 (g.metrics.currentMetrics.arr * (1/5))
      linarith
    · exact h
  · unfold Game.update
    rw [checkGameOver_capital, tickCore_capital]

theorem claim_C9_witness :
    0 ≤ (Game.placeTower gWitC5 TType.SALES ⟨0, 0⟩).1.capital ∧
    0 ≤ (Game.sellTower gWitC5 twC2).1.capital ∧
    (Game.update (fun q => q) (fun _ => ⟨0, 0⟩) 800 600 oTrivial
        gWitC5).capital = gWitC5.capital := by
  have h := claim_C9 gWitC5 TType.SALES ⟨0, 0⟩ twC2 (fun q => q)
    (fun _ => ⟨0, 0⟩) 800 600 oTrivial (by norm_num [gWitC5])
  exact ⟨h.2.1, h.2.2.2.1, h.2.2.2.2.2⟩

/-! ### Metrics lemmas -/

lemma pushHistory_grr (cs : List Customer) (m : MetricsState) :
    (MetricsState.pushHistory cs m).currentMetrics.grr =
      m.currentMetrics.grr := by
  unfold MetricsState.pushHistory
  dsimp only
  split_ifs <;> rfl

lemma pushHistory_nrr (cs : List Customer) (m : MetricsState) :
    (MetricsState.pushHistory cs m).currentMetrics.nrr =
      m.currentMetrics.nrr := by
  unfold MetricsState.pushHistory
  dsimp only
  split_ifs <;> rfl

lemma computeChurn_grr (cs : List Customer) (m : MetricsState) :
    (MetricsState.computeChurn cs m).currentMetrics.grr =
      m.currentMetrics.grr := by
  unfold MetricsState.computeChurn
  dsimp only
  split_ifs <;> rfl

lemma computeChurn_nrr (cs : List Customer) (m : MetricsState) :
    (MetricsState.computeChurn cs m).currentMetrics.nrr =
      m.currentMetrics.nrr := by
  unfold MetricsState.computeChurn
  dsimp only
  split_ifs <;> rfl

lemma computeCacLtv_grr (cs : List Customer) (sp : ℚ) (m : MetricsState) :
    (MetricsState.computeCacLtv cs sp m).currentMetrics.grr =
      m.currentMetrics.grr := by
  unfold MetricsState.computeCacLtv
  dsimp only
  split_ifs <;> rfl

lemma computeCacLtv_nrr (cs : List Customer) (sp : ℚ) (m : MetricsState) :
    (MetricsState.computeCacLtv cs sp m).currentMetrics.nrr =
      m.currentMetrics.nrr := by
  unfold MetricsState.computeCacLtv
  dsimp only
  split_ifs <;> rfl

lemma calculateMetrics_grr (cs : List Customer) (sp : ℚ) (m : MetricsState) :
    (MetricsState.calculateMetrics cs sp m).currentMetrics.grr =
      (MetricsState.computeRetention
        (MetricsState.pushHistory cs m)).currentMetrics.grr := by
  unfold MetricsState.calculateMetrics
  rw [computeCacLtv_grr, computeChurn_grr]

lemma calculateMetrics_nrr (cs : List Customer) (sp : ℚ) (m : MetricsState) :
    (MetricsState.calculateMetrics cs sp m).currentMetrics.nrr =
      (MetricsState.computeRetention
        (MetricsState.pushHistory cs m)).currentMetrics.nrr := by
  unfold MetricsState.calculateMetrics
  rw [computeCacLtv_nrr, computeChurn_nrr]

lemma retained_contains (prev curr : List SnapEntry) (e : SnapEntry)
    (he : e ∈ prev) :
    (MetricsState.retainedIds prev curr).contains e.id =
      curr.any fun cc => cc.id == e.id := by
  unfold MetricsState.retainedIds
  rw [Bool.eq_iff_iff]
  rw [show ((List.filter (fun i => curr.any fun cc => cc.id == i)
      (List.map SnapEntry.id prev)).contains e.id = true) ↔
      e.id ∈ (List.filter (fun i => curr.any fun cc => cc.id == i)
        (List.map SnapEntry.id prev)) from List.elem_iff]
  simp only [List.mem_filter, List.mem_map, List.any_eq_true, beq_iff_eq]
  constructor
  · rintro ⟨-, cc, hcc, hid⟩
    exact ⟨cc, hcc, hid⟩
  · rintro ⟨cc, hcc, hid⟩
    exact ⟨⟨e, he, rfl⟩, cc, hcc, hid⟩

lemma retainedSpend_spec (prev curr : List SnapEntry) :
    MetricsState.retainedSpend prev (MetricsState.retainedIds prev curr) =
      MetricsState.entrySpendSum
        (prev.filter fun e => curr.any fun cc => cc.id == e.id) := by
  unfold MetricsState.retainedSpend
  congr 1
  exact List.filter_congr fun e he => retained_contains prev curr e he

/-- Claim C4 (amended): with at least two stored snapshots, when the total
previous-snapshot spend is positive `calculateMetrics` sets
`grr = min(prevRetainedSpend / totalPrevSpend, 1)` and
`nrr = currRetainedSpend / totalPrevSpend` (with the retained-spend sums
equal to the claim's "sum over ids retained in both snapshots"); but when
the total previous-snapshot spend is 0 it does not set them to 0 — it
leaves both `grr` and `nrr` unchanged from before the call. -/
theorem claim_C4 (m : MetricsState) (cs : List Customer) (sp : ℚ)
    (h : 2 ≤ (MetricsState.pushHistory cs m).historyCustomers.length) :
    (0 < MetricsState.totalPrevSpend (MetricsState.pushHistory cs m) →
      (MetricsState.calculateMetrics cs sp m).currentMetrics.grr =
        min (MetricsState.retainedSpend
              (MetricsState.prevSnapshot (MetricsState.pushHistory cs m))
              (MetricsState.retainedIds
                (MetricsState.prevSnapshot (MetricsState.pushHistory cs m))
                (MetricsState.currSnapshot (MetricsState.pushHistory cs m))) /
            MetricsState.totalPrevSpend (MetricsState.pushHistory cs m)) 1 ∧
      (MetricsState.calculateMetrics cs sp m).currentMetrics.nrr =
        MetricsState.retainedSpend
            (MetricsState.currSnapshot (MetricsState.pushHistory cs m))
            (MetricsState.retainedIds
              (MetricsState.prevSnapshot (MetricsState.pushHistory cs m))
              (MetricsState.currSnapshot (MetricsState.pushHistory cs m))) /
          MetricsState.totalPrevSpend (MetricsState.pushHistory cs m)) ∧
    (¬ 0 < MetricsState.totalPrevSpend (MetricsState.pushHistory cs m) →
      (MetricsState.calculateMetrics cs sp m).currentMetrics.grr =
        m.currentMetrics.grr ∧
      (MetricsState.calculateMetrics cs sp m).currentMetrics.nrr =
        m.currentMetrics.nrr) ∧
    MetricsState.retainedSpend
        (MetricsState.prevSnapshot (MetricsState.pushHistory cs m))
        (MetricsState.retainedIds
          (MetricsState.prevSnapshot (MetricsState.pushHistory cs m))
          (MetricsState.currSnapshot (MetricsState.pushHistory cs m))) =
      MetricsState.entrySpendSum
        ((MetricsState.prevSnapshot (MetricsState.pushHistory cs m)).filter
          fun e =>
            (MetricsState.currSnapshot (MetricsState.pushHistory cs m)).any
              fun cc => cc.id == e.id) := by
  refine ⟨fun hp => ?_, fun hp => ?_, retainedSpend_spec _ _⟩
  · rw [calculateMetrics_grr, calculateMetrics_nrr]
    unfold MetricsState.computeRetention
    dsimp only
    rw [if_pos h, if_pos hp]
    exact ⟨rfl, rfl⟩
  · rw [calculateMetrics_grr, calculateMetrics_nrr]
    unfold MetricsState.computeRetention
    dsimp only
    rw [if_pos h, if_neg hp]
    exact ⟨pushHistory_grr cs m, pushHistory_nrr cs m⟩

lemma computeRetention_historyArr (m : MetricsState) :
    (MetricsState.computeRetention m).historyArr = m.historyArr := by
  unfold MetricsState.computeRetention
  dsimp only
  split_ifs <;> rfl

lemma computeRetention_historyCustomers (m : MetricsState) :
    (MetricsState.computeRetention m).historyCustomers =
      m.historyCustomers := by
  unfold MetricsState.computeRetention
  dsimp only
  split_ifs <;> rfl

lemma computeChurn_historyArr (cs : List Customer) (m : MetricsState) :
    (MetricsState.computeChurn cs m).historyArr = m.historyArr := by
  unfold MetricsState.computeChurn
  dsimp only
  split_ifs <;> rfl

lemma computeChurn_historyCustomers (cs : List Customer) (m : MetricsState) :
    (MetricsState.computeChurn cs m).historyCustomers = m.historyCustomers := by
  unfold MetricsState.computeChurn
  dsimp only
  split_ifs <;> rfl

lemma computeCacLtv_historyArr (cs : List Customer) (sp : ℚ)
    (m : MetricsState) :
    (MetricsState.computeCacLtv cs sp m).historyArr = m.historyArr := by
  unfold MetricsState.computeCacLtv
  dsimp only
  split_ifs <;> rfl

lemma computeCacLtv_historyCustomers (cs : List Customer) (sp : ℚ)
    (m : MetricsState) :
    (MetricsState.computeCacLtv cs sp m).historyCustomers =
      m.historyCustomers := by
  unfold MetricsState.computeCacLtv
  dsimp only
  split_ifs <;> rfl

lemma calculateMetrics_historyArr (cs : List Customer) (sp : ℚ)
    (m : MetricsState) :
    (MetricsState.calculateMetrics cs sp m).historyArr =
      (MetricsState.pushHistory cs m).historyArr := by
  unfold MetricsState.calculateMetrics
  rw [computeCacLtv_historyArr, computeChurn_historyArr,
    computeRetention_historyArr]

lemma calculateMetrics_historyCustomers (cs : List Customer) (sp : ℚ)
    (m : MetricsState) :
    (MetricsState.calculateMetrics cs sp m).historyCustomers =
      (MetricsState.pushHistory cs m).historyCustomers := by
  unfold MetricsState.calculateMetrics
  rw [computeCacLtv_historyCustomers, computeChurn_historyCustomers,
    computeRetention_historyCustomers]

/-- ACTIVE customer record with a given spend, used to drive
`calculateMetrics` in the claim C4 counterexample. -/
def mcA (spend : ℚ) : Customer where
  id := 1
  ctype := .SMALL
  status := .ACTIVE
  position := ⟨0, 0⟩
  health := 100
  spend := spend
  trust := 50
  lapCount := 0
  pathPosition := 0
  movementSpeed := 1/1000
  isOnTrack := true
  targetPoint := none
  approachSpeed := 1
  engaged := true

/-- First metrics call: one ACTIVE customer with spend 100. -/
def mC4a : MetricsState :=
  MetricsState.calculateMetrics [mcA 100] 0 MetricsState.initState

/-- Second call: the same customer with spend 0. -/
def mC4b : MetricsState := MetricsState.calculateMetrics [mcA 0] 0 mC4a

/-- Third call: the same customer with spend 50; the previous snapshot now
totals 0. -/
def mC4c : MetricsState := MetricsState.calculateMetrics [mcA 50] 0 mC4b

set_option maxHeartbeats 1000000 in
/-- Counterexample to claim C4: after snapshots with spends `[100]`, `[0]`,
`[50]` for the same customer id, the third call computes with a previous
snapshot whose total spend is 0, and `grr` stays at the stale value 1 from
the previous call instead of being 0. -/
theorem claim_C4_counterexample :
    MetricsState.totalPrevSpend (MetricsState.pushHistory [mcA 50] mC4b) = 0 ∧
    2 ≤ (MetricsState.pushHistory [mcA 50] mC4b).historyCustomers.length ∧
    mC4c.currentMetrics.grr = 1 ∧ mC4c.currentMetrics.grr ≠ 0 := by
  refine ⟨?_, ?_, ?_, ?_⟩ <;>
  norm_num [mC4c, mC4b, mC4a, MetricsState.calculateMetrics,
    MetricsState.pushHistory, MetricsState.computeRetention,
    MetricsState.computeChurn, MetricsState.computeCacLtv,
    MetricsState.initState, MetricsState.spendSum, MetricsState.activeGold,
    MetricsState.snapshotOf, MetricsState.prevSnapshot,
    MetricsState.currSnapshot, MetricsState.retainedIds,
    MetricsState.retainedSpend, MetricsState.totalPrevSpend,
    MetricsState.entrySpendSum, mcA, List.filter, List.foldl,
    List.getLast?, max_def, min_def]

set_option maxHeartbeats 1000000 in
theorem claim_C4_witness :
    mC4c.currentMetrics.grr = mC4b.currentMetrics.grr ∧
    mC4c.currentMetrics.nrr = mC4b.currentMetrics.nrr := by
  have hlen : 2 ≤
      (MetricsState.pushHistory [mcA 50] mC4b).historyCustomers.length := by
    norm_num [mC4b, mC4a, MetricsState.calculateMetrics,
      MetricsState.pushHistory, MetricsState.computeRetention,
      MetricsState.computeChurn, MetricsState.computeCacLtv,
      MetricsState.initState, MetricsState.spendSum, MetricsState.activeGold,
      MetricsState.snapshotOf, MetricsState.prevSnapshot,
      MetricsState.currSnapshot, MetricsState.retainedIds,
      MetricsState.retainedSpend, MetricsState.totalPrevSpend,
      MetricsState.entrySpendSum, mcA, List.filter, List.foldl,
      List.getLast?, max_def, min_def]
  have hneg : ¬ 0 <
      MetricsState.totalPrevSpend (MetricsState.pushHistory [mcA 50] mC4b) := by
    norm_num [mC4b, mC4a, MetricsState.calculateMetrics,
      MetricsState.pushHistory, MetricsState.computeRetention,
      MetricsState.computeChurn, MetricsState.computeCacLtv,
      MetricsState.initState, MetricsState.spendSum, MetricsState.activeGold,
      MetricsState.snapshotOf, MetricsState.prevSnapshot,
      MetricsState.currSnapshot, MetricsState.retainedIds,
      MetricsState.retainedSpend, MetricsState.totalPrevSpend,
      MetricsState.entrySpendSum, mcA, List.filter, List.foldl,
      List.getLast?, max_def, min_def]
  have h := (claim_C4 mC4b [mcA 50] 0 hlen).2.1 hneg
  exact ⟨h.1, h.2⟩

/-! ### Targeting-invariant lemmas -/

lemma foldl_add_init (g : ℕ → ℚ) :
    ∀ (l : List ℕ) (a : ℚ),
      l.foldl (fun s i => s + g i) a = a + l.foldl (fun s i => s + g i) 0 := by
  intro l
  induction l with
  | nil => intro a; simp
  | cons x xs ih =>
    intro a
    rw [List.foldl_cons, List.foldl_cons, ih (a + g x), ih (0 + g x)]
    ring

lemma lookupSpend_nonneg (cs : List Customer)
    (hsp : ∀ c ∈ cs, 0 ≤ c.spend) (i : ℕ) : 0 ≤ Tower.lookupSpend cs i := by
  unfold Tower.lookupSpend
  cases hf : cs.find? fun c => c.id == i with
  | none => simp
  | some c =>
    simp only [Option.map_some', Option.getD_some]
    exact hsp c (List.mem_of_find?_eq_some hf)

lemma foldl_lookup_filter_le (cs : List Customer)
    (hsp : ∀ c ∈ cs, 0 ≤ c.spend) (p : ℕ → Bool) :
    ∀ ts : List ℕ,
      (ts.filter p).foldl (fun s j => s + Tower.lookupSpend cs j) 0 ≤
        ts.foldl (fun s j => s + Tower.lookupSpend cs j) 0 := by
  intro ts
  induction ts with
  | nil => simp
  | cons x xs ih =>
    rw [List.filter_cons]
    split_ifs with hp
    · rw [List.foldl_cons, List.foldl_cons,
        foldl_add_init _ (xs.filter p), foldl_add_init _ xs]
      linarith
    · rw [List.foldl_cons, foldl_add_init _ xs]
      have h0 := lookupSpend_nonneg cs hsp x
      linarith

lemma find?_eq_of_nodup :
    ∀ (cs : List Customer), (cs.map Customer.id).Nodup →
      ∀ c ∈ cs, cs.find? (fun x => x.id == c.id) = some c := by
  intro cs
  induction cs with
  | nil => intro _ c hc; cases hc
  | cons a rest ih =>
    intro hnd c hc
    rw [List.map_cons, List.nodup_cons] at hnd
    by_cases hpa : (a.id == c.id) = true
    · rcases List.mem_cons.mp hc with rfl | hmem
      · exact List.find?_cons_of_pos _ hpa
      · exact absurd (beq_iff_eq.mp hpa ▸ List.mem_map_of_mem Customer.id hmem)
          hnd.1
    · have hcr : c ∈ rest := by
        rcases List.mem_cons.mp hc with rfl | hm
        · exact absurd (by simp) hpa
        · exact hm
      rw [List.find?_cons_of_neg _ (by simpa using hpa)]
      exact ih hnd.2 c hcr

lemma lookupSpend_of_mem (cs : List Customer)
    (hnd : (cs.map Customer.id).Nodup) (c : Customer) (hc : c ∈ cs) :
    Tower.lookupSpend cs c.id = c.spend := by
  unfold Tower.lookupSpend
  rw [find?_eq_of_nodup cs hnd c hc]
  rfl

lemma mv_push (cs : List Customer) (tw : Tower) (i : ℕ) :
    Tower.getCurrentManagedValue cs
        { tw with currentTargets := tw.currentTargets ++ [i] } =
      Tower.getCurrentManagedValue cs tw + Tower.lookupSpend cs i := by
  show (tw.currentTargets ++ [i]).foldl
      (fun s j => s + Tower.lookupSpend cs j) 0 = _
  rw [List.foldl_append]
  rfl

lemma canHandleTarget_spec (cs : List Customer) (tw : Tower) (c : Customer)
    (h : Tower.canHandleTarget cs tw c = true) :
    tw.currentTargets.length < tw.maxTargets ∧
      Tower.getCurrentManagedValue cs tw + c.spend ≤ tw.maxValueManaged := by
  unfold Tower.canHandleTarget at h
  split_ifs at h with h1 h2
  exact ⟨Nat.lt_of_not_le h1, le_of_not_lt h2⟩

lemma addTargetsLoop_length (cs : List Customer) :
    ∀ (l : List Customer) (tw : Tower),
      tw.currentTargets.length ≤ tw.maxTargets →
      (Tower.addTargetsLoop cs tw l).currentTargets.length ≤
        tw.maxTargets := by
  intro l
  induction l with
  | nil => intro tw h; exact h
  | cons c rest ih =>
    intro tw h
    unfold Tower.addTargetsLoop
    dsimp only
    split_ifs with h1 h2
    · have hlt := (canHandleTarget_spec cs tw c
        ((Bool.and_eq_true _ _).mp h1).2).1
      simpa using hlt
    · have hlt := (canHandleTarget_spec cs tw c
        ((Bool.and_eq_true _ _).mp h1).2).1
      exact ih _ (by simpa using hlt)
    · exact ih tw h

lemma addTargetsLoop_value (cs : List Customer)
    (hnd : (cs.map Customer.id).Nodup) :
    ∀ (l : List Customer) (tw : Tower), (∀ c ∈ l, c ∈ cs) →
      Tower.getCurrentManagedValue cs tw ≤ tw.maxValueManaged →
      Tower.getCurrentManagedValue cs (Tower.addTargetsLoop cs tw l) ≤
        tw.maxValueManaged := by
  intro l
  induction l with
  | nil => intro tw _ h; exact h
  | cons c rest ih =>
    intro tw hmem h
    have hc : c ∈ cs := hmem c (List.mem_cons_self c rest)
    unfold Tower.addTargetsLoop
    dsimp only
    split_ifs with h1 h2
    · have hv := (canHandleTarget_spec cs tw c
        ((Bool.and_eq_true _ _).mp h1).2).2
      rw [mv_push, lookupSpend_of_mem cs hnd c hc]
      exact hv
    · have hv := (canHandleTarget_spec cs tw c
        ((Bool.and_eq_true _ _).mp h1).2).2
      have hmv : Tower.getCurrentManagedValue cs
          { tw with currentTargets := tw.currentTargets ++ [c.id] } ≤
            tw.maxValueManaged := by
        rw [mv_push, lookupSpend_of_mem cs hnd c hc]
        exact hv
      exact ih _ (fun x hx => hmem x (List.mem_cons_of_mem c hx)) hmv
    · exact ih tw (fun x hx => hmem x (List.mem_cons_of_mem c hx)) h

lemma mem_insertSorted (lt : Customer → Customer → Bool) (x a : Customer) :
    ∀ l : List Customer, a ∈ Tower.insertSorted lt x l → a = x ∨ a ∈ l := by
  intro l
  induction l with
  | nil =>
    intro h
    unfold Tower.insertSorted at h
    rcases List.mem_singleton.mp h with rfl
    exact Or.inl rfl
  | cons y ys ih =>
    intro h
    unfold Tower.insertSorted at h
    split_ifs at h
    · rcases List.mem_cons.mp h with rfl | hm
      · exact Or.inr (List.mem_cons_self _ _)
      · rcases ih hm with rfl | hm2
        · exact Or.inl rfl
        · exact Or.inr (List.mem_cons_of_mem _ hm2)
    · rcases List.mem_cons.mp h with rfl | hm
      · exact Or.inl rfl
      · exact Or.inr hm

lemma mem_sortCustomers (lt : Customer → Customer → Bool) (a : Customer) :
    ∀ l : List Customer, a ∈ Tower.sortCustomers lt l → a ∈ l := by
  intro l
  induction l with
  | nil => intro h; exact absurd h (by simp [Tower.sortCustomers])
  | cons x xs ih =>
    intro h
    unfold Tower.sortCustomers at h
    rcases mem_insertSorted lt x a _ h with rfl | hm
    · exact List.mem_cons_self _ _
    · exact List.mem_cons_of_mem _ (ih hm)

lemma mem_filterTargetsByStrategy (sqrtFn : ℚ → ℚ) (tw : Tower)
    (cs : List Customer) (c : Customer)
    (h : c ∈ Tower.filterTargetsByStrategy sqrtFn tw cs) : c ∈ cs := by
  unfold Tower.filterTargetsByStrategy at h
  rcases htt : tw.ttype <;> rw [htt] at h <;>
    rcases hst : tw.targetingStrategy <;> rw [hst] at h <;>
    simp only [List.mem_filter] at h <;> tauto

lemma mem_getPriorityTargets (tw : Tower) (l : List Customer) (c : Customer)
    (h : c ∈ Tower.getPriorityTargets tw l) : c ∈ l := by
  unfold Tower.getPriorityTargets at h
  rcases htt : tw.ttype <;> rw [htt] at h <;>
    exact mem_sortCustomers _ c l h

lemma updateTargeting_length (sqrtFn : ℚ → ℚ) (cs : List Customer)
    (tw : Tower) (h : tw.currentTargets.length ≤ tw.maxTargets) :
    (Tower.updateTargeting sqrtFn cs tw).currentTargets.length ≤
      tw.maxTargets := by
  unfold Tower.updateTargeting
  dsimp only
  split_ifs with h1 h2 h3 h4 h5 <;>
    first
      | exact le_trans (List.length_filter_le _ _) h
      | exact addTargetsLoop_length cs _ _
          (le_trans (List.length_filter_le _ _) h)

lemma updateTargeting_value (sqrtFn : ℚ → ℚ) (cs : List Customer)
    (tw : Tower) (hnd : (cs.map Customer.id).Nodup)
    (hsp : ∀ c ∈ cs, 0 ≤ c.spend)
    (h : Tower.getCurrentManagedValue cs tw ≤ tw.maxValueManaged) :
    Tower.getCurrentManagedValue cs (Tower.updateTargeting sqrtFn cs tw) ≤
      tw.maxValueManaged := by
  unfold Tower.updateTargeting
  dsimp only
  split_ifs with h1 h2 h3 h4 h5
  · exact le_trans (foldl_lookup_filter_le cs hsp _ _) h
  · exact le_trans (le_of_eq rfl)
      (addTargetsLoop_value cs hnd _ _
        (fun c hc => mem_filterTargetsByStrategy sqrtFn _ cs c
          (mem_getPriorityTargets _ _ c hc))
        (le_trans (foldl_lookup_filter_le cs hsp _ _) h))
  · exact addTargetsLoop_value cs hnd _ _
      (fun c hc => mem_filterTargetsByStrategy sqrtFn _ cs c
        (mem_getPriorityTargets _ _ c hc))
      (le_trans (foldl_lookup_filter_le cs hsp _ _) h)
  · exact le_trans (foldl_lookup_filter_le cs hsp _ _) h
  · exact le_trans (le_of_eq rfl)
      (addTargetsLoop_value cs hnd _ _
        (fun c hc => mem_filterTargetsByStrategy sqrtFn _ cs c
          (mem_getPriorityTargets _ _ c hc))
        (le_trans (foldl_lookup_filter_le cs hsp _ _) h))
  · exact addTargetsLoop_value cs hnd _ _
      (fun c hc => mem_filterTargetsByStrategy sqrtFn _ cs c
        (mem_getPriorityTargets _ _ c hc))
      (le_trans (foldl_lookup_filter_le cs hsp _ _) h)

/-- Claim C1 (amended): `|currentTargets| ≤ maxTargets` is preserved by
every targeting refresh (and the attack phase never changes the target
list), and with unique customer ids and nonnegative spends the targeting
refresh also preserves `Σ target.spend ≤ maxValueManaged` — the value cap
is checked only when a target is added, so spend growth of an existing
target (e.g. a successful upsell in the same tick) can leave the aggregate
managed value above `maxValueManaged` at the tick boundary, as the
counterexample shows. -/
theorem claim_C1 (sqrtFn : ℚ → ℚ) (cs : List Customer) (tw : Tower)
    (rDraw : ℕ → ℚ) :
    (tw.currentTargets.length ≤ tw.maxTargets →
      (Tower.updateTargeting sqrtFn cs tw).currentTargets.length ≤
        tw.maxTargets) ∧
    ((cs.map Customer.id).Nodup → (∀ c ∈ cs, 0 ≤ c.spend) →
      Tower.getCurrentManagedValue cs tw ≤ tw.maxValueManaged →
      Tower.getCurrentManagedValue cs (Tower.updateTargeting sqrtFn cs tw) ≤
        tw.maxValueManaged) ∧
    (Tower.update rDraw cs tw).1.currentTargets = tw.currentTargets := by
  refine ⟨updateTargeting_length sqrtFn cs tw,
    updateTargeting_value sqrtFn cs tw, ?_⟩
  unfold Tower.update
  split_ifs <;> rfl

/-- ACTIVE customer whose spend (980000) nearly fills a level-1 SALES
tower's value cap (1000000), standing at the tower's position. -/
def cC1 : Customer where
  id := 1
  ctype := .ENTERPRISE
  status := .ACTIVE
  position := ⟨100, 100⟩
  health := 100
  spend := 980000
  trust := 50
  lapCount := 2
  pathPosition := 1/10
  movementSpeed := 1/1000
  isOnTrack := true
  targetPoint := none
  approachSpeed := 1
  engaged := true

/-- Fresh level-1 SALES tower at the customer's position. -/
def twC1 : Tower := Tower.init 0 .SALES ⟨100, 100⟩

/-- The tower's per-tick pass exactly as `Game.update` performs it:
targeting refresh, then action (here: a successful upsell draw 0.001). -/
def stepC1 : Tower × List Customer :=
  Tower.update (fun _ => 1/1000) [cC1]
    (Tower.updateTargeting (fun q => q) [cC1] twC1)

set_option maxHeartbeats 1600000 in
/-- Counterexample to claim C1: before the tick both caps hold (the tower
has no targets); during the tick the targeting refresh legally adds the
customer (980000 ≤ 1000000), then the attack upsells it by 5% to 1029000,
so at the tick boundary `Σ target.spend = 1029000 > maxValueManaged =
1000000` — the value cap is violated while the size cap still holds. -/
theorem claim_C1_counterexample :
    Tower.getCurrentManagedValue [cC1] twC1 ≤ twC1.maxValueManaged ∧
    twC1.currentTargets.length ≤ twC1.maxTargets ∧
    stepC1.1.currentTargets.length ≤ stepC1.1.maxTargets ∧
    Tower.getCurrentManagedValue stepC1.2 stepC1.1 = 1029000 ∧
    stepC1.1.maxValueManaged = 1000000 ∧
    ¬ Tower.getCurrentManagedValue stepC1.2 stepC1.1 ≤
        stepC1.1.maxValueManaged := by
  refine ⟨?_, ?_, ?_, ?_, ?_, ?_⟩ <;>
    norm_num [stepC1, twC1, cC1, Tower.update, Tower.updateTargeting,
      Tower.attackTargets, Tower.attackEffect, Tower.addTargetsLoop,
      Tower.canHandleTarget, Tower.getCurrentManagedValue, Tower.lookupSpend,
      Tower.isInRange, Tower.filterTargetsByStrategy, Tower.getPriorityTargets,
      Tower.sortCustomers, Tower.insertSorted, Tower.init, Tower.getBaseRange,
      Tower.getBaseAttackSpeed, Tower.getBaseMaxTargets,
      Tower.getBaseMaxValueManaged, Customer.increaseSpend, Customer.convert,
      Customer.recoverToGold, Customer.increaseHealth, Customer.increaseTrust,
      List.filter, List.foldl, List.find?, List.map, max_def, min_def]

theorem claim_C1_witness :
    (Tower.updateTargeting (fun q => q) [cC1] twC1).currentTargets.length ≤
      twC1.maxTargets ∧
    Tower.getCurrentManagedValue [cC1]
        (Tower.updateTargeting (fun q => q) [cC1] twC1) ≤
      twC1.maxValueManaged := by
  have h := claim_C1 (fun q => q) [cC1] twC1 (fun _ => 1/1000)
  refine ⟨h.1 (by norm_num [twC1, Tower.init, Tower.getBaseMaxTargets]), ?_⟩
  refine h.2.1 (by norm_num [cC1]) ?_ ?_
  · intro c hc
    rcases List.mem_singleton.mp hc with rfl
    norm_num [cC1]
  · norm_num [twC1, cC1, Tower.getCurrentManagedValue, Tower.init,
      Tower.getBaseMaxValueManaged, List.foldl]
